import Mathlib

/-!
Shallow embedding of `app.py` ("File Categorization" tool).

The program walks a directory, lets the user assign each file one of six
fixed categories, and exports the categorized listing as Excel, Word or
PDF.  We embed the pure logic of the program:

* paths are strings; `os.path.normpath` / `os.path.join` are embedded with
  their POSIX semantics (the semantics of `os.path` on the platform the
  program runs on here);
* the filesystem is an explicit model `FS` (existence predicate, walk
  result, readable modification time);
* Python dictionaries keyed by strings are insertion-ordered association
  lists, with Python's value equality and update semantics made explicit;
* the three document renderers are embedded down to the grid of text
  cells they emit; the binary encoders behind them (openpyxl, python-docx,
  reportlab) are external libraries and are not part of this repository's
  code, so an export buffer is modelled by its list of (column1, column2)
  rows.
-/

namespace FileCategorization

/-! ### Character-level string helpers (structural, kernel-reducible) -/

/-- First `n` characters of a string, like Python `s[:n]`. -/
def strTake (s : String) (n : Nat) : String :=
  String.mk (s.data.take n)

/-- All but the first `n` characters, like Python `s[n:]`. -/
def strDrop (s : String) (n : Nat) : String :=
  String.mk (s.data.drop n)

/-- `s.startswith(t)` for Python strings. -/
def strStartsWith (s t : String) : Bool :=
  t.data.isPrefixOf s.data

/-- `s.endswith(t)` for Python strings. -/
def strEndsWith (s t : String) : Bool :=
  t.data.isSuffixOf s.data

/-- Split a character list at every `'/'`, keeping empty components,
like Python `s.split("/")`. -/
def splitSlash : List Char → List (List Char)
  | [] => [[]]
  | c :: t =>
    let r := splitSlash t
    if c = '/' then [] :: r
    else
      match r with
      | [] => [[c]]
      | h :: t2 => (c :: h) :: t2

/-- Join components with `'/'`, like Python `"/".join(comps)`. -/
def joinSlash : List (List Char) → List Char
  | [] => []
  | [x] => x
  | x :: y :: t => x ++ '/' :: joinSlash (y :: t)

/-- One step of the component loop of `posixpath.normpath`:
skip `''` and `'.'`; append ordinary components; `'..'` pops the last
component unless the accumulator is empty or ends in `'..'` (or the path
is relative and the accumulator is empty, in which case `'..'` is kept). -/
def normpathStep (initialSlashes : Nat) (acc : List (List Char)) (comp : List Char) :
    List (List Char) :=
  if comp = [] ∨ comp = ['.'] then acc
  else if comp ≠ ['.', '.'] ∨ (initialSlashes = 0 ∧ acc = []) ∨
      (acc ≠ [] ∧ acc.getLast? = some ['.', '.']) then acc ++ [comp]
  else if acc ≠ [] then acc.dropLast
  else acc

/-- `os.path.normpath` with POSIX semantics (`posixpath.normpath`). -/
def posixNormpath (p : String) : String :=
  if p = "" then "." else
  let initialSlashes : Nat :=
    if strStartsWith p "/" = true then
      if strStartsWith p "//" = true ∧ strStartsWith p "///" = false then 2 else 1
    else 0
  let comps := splitSlash p.data
  let newComps := comps.foldl (normpathStep initialSlashes) []
  let joined := List.replicate initialSlashes '/' ++ joinSlash newComps
  if joined = [] then "." else String.mk joined

/-- `os.path.join a b` with POSIX semantics (`posixpath.join`, two arguments). -/
def posixJoin (a b : String) : String :=
  if strStartsWith b "/" = true then b
  else if a = "" ∨ strEndsWith a "/" = true then a ++ b
  else a ++ "/" ++ b

/-- Replace the first occurrence of `old` (scanning left to right) by `new`;
the list-level core of Python `s.replace(old, new, 1)`. -/
def replaceFirstAux (old new : List Char) : List Char → List Char
  | [] => if old = [] then new else []
  | c :: t =>
    if old.isPrefixOf (c :: t) then new ++ (c :: t).drop old.length
    else c :: replaceFirstAux old new t

/-- Python `s.replace(old, new, 1)`: substitute the first occurrence of
`old` anywhere in `s` (not only at the start) by `new`; `s` unchanged when
`old` does not occur. -/
def pyReplaceFirst (s old new : String) : String :=
  String.mk (replaceFirstAux old.data new.data s.data)

/-! ### Filesystem model and file enumeration (`get_files`, app.py lines 28-55) -/

/-- Explicit filesystem model: which path strings name an existing entry,
what `os.walk` yields under a root ((directory, filename) pairs in walk
order), and whether/what `os.path.getmtime` returns for a path
(`some formattedDate` for a readable time already formatted `%Y-%m-%d`,
`none` when reading raises `OSError`/`FileNotFoundError`). -/
structure FS where
  pathExists : String → Bool
  walk : String → List (String × String)
  mtime : String → Option String

/-- One enumerated file: the tuple
`(name, modified_time, full_path, relative_full_path)` built by `get_files`. -/
structure FileRecord where
  name : String
  modifiedTime : String
  absolutePath : String
  relativePath : String
deriving DecidableEq, Repr

/-- `get_files(path, original_path)`: raises `ValueError` when the base path
does not exist; otherwise, for every walked file, builds the normalized
full path, derives the client-relative path by
`full_path.replace(path, original_path, 1)`, reads the modification time
and substitutes `"Unavailable"` when that read fails. -/
def get_files (fs : FS) (path original_path : String) :
    Except String (List FileRecord) :=
  if fs.pathExists path = false then
    Except.error ("Base path does not exist: " ++ path)
  else
    Except.ok <| (fs.walk path).map fun rn =>
      let full_path := posixNormpath (posixJoin rn.1 rn.2)
      let relative_full_path := pyReplaceFirst full_path path original_path
      let modified_time :=
        match fs.mtime full_path with
        | some t => t
        | none => "Unavailable"
      ⟨rn.2, modified_time, full_path, relative_full_path⟩

/-! ### Path resolution (`resolve_path`, app.py lines 58-96) -/

/-- Outcome of `resolve_path`: a returned path, a raised `ValueError`
(the spec's `InvalidPathError`, surfaced to the UI), or the uncaught
`TypeError` produced by `None + str` when the `Z:` mapping is unset. -/
inductive ResolveResult where
  | ok (path : String)
  | valueError (msg : String)
  | typeError
deriving DecidableEq, Repr

/-- `resolve_path(path)` with the environment value `os.getenv('UNC_PATH')`
passed explicitly.  Normalizes the path, consults the drive mapping
`{"Z:": UNC_PATH, "Y:": "\\Server\SharedDrive"}` keyed by the first two
characters, then falls through to the UNC check and the plain existence
check.  When the `Z:` branch is taken with `UNC_PATH` unset, Python
evaluates `None + path[2:]` and crashes with `TypeError`. -/
def resolve_path (uncEnv : Option String) (fs : FS) (path0 : String) :
    ResolveResult :=
  let path := posixNormpath path0
  let drive_letter := strTake path 2
  if drive_letter = "Z:" then
    match uncEnv with
    | none => ResolveResult.typeError
    | some unc =>
      let unc_path := posixNormpath (unc ++ strDrop path 2)
      if fs.pathExists unc_path = true then ResolveResult.ok unc_path
      else ResolveResult.valueError
        ("Invalid or inaccessible mapped drive path: " ++ unc_path)
  else if drive_letter = "Y:" then
    let unc_path := posixNormpath ("\\\\Server\\SharedDrive" ++ strDrop path 2)
    if fs.pathExists unc_path = true then ResolveResult.ok unc_path
    else ResolveResult.valueError
      ("Invalid or inaccessible mapped drive path: " ++ unc_path)
  else if strStartsWith path "\\\\" = true then
    if fs.pathExists path = true then ResolveResult.ok path
    else ResolveResult.valueError ("Invalid or inaccessible UNC path: " ++ path)
  else if fs.pathExists path = true then ResolveResult.ok path
  else ResolveResult.valueError ("Invalid or inaccessible local path: " ++ path)

/-! ### Category assignment store (app.py lines 254, 306-332) -/

/-- The six fixed categories, in the order the source lists them (line 254). -/
def categories : List String :=
  ["CONTRACTUAL", "ARCHITECTURAL", "STRUCTURAL", "SERVICES", "SAFETY", "OTHER"]

/-- The `category_selection` dictionary: insertion-ordered entries
`(name, (modified_time, category))`. -/
abbrev Selection := List (String × String × String)

/-- Grouped mapping `category` to list of `(name, modified_time)`. -/
abbrev Grouped := List (String × List (String × String))

/-- Python dict lookup `d[k]` (as `Option`): value of the first — in a real
dict, the only — entry with key `k`. -/
def dictLookup {α : Type} (d : List (String × α)) (k : String) : Option α :=
  (d.find? fun p => p.1 = k).map fun p => p.2

/-- Python dict assignment `d[k] = v`: update the value in place when the
key is present (keeping its position), append the entry otherwise. -/
def dictInsert {α : Type} (d : List (String × α)) (k : String) (v : α) :
    List (String × α) :=
  if d.any (fun p => p.1 = k) then
    d.map fun p => if p.1 = k then (k, v) else p
  else d ++ [(k, v)]

/-- The per-file loop of lines 306-320: for each displayed file, in display
order, execute `category_selection[name] = (modified_time, category)`.
The input list holds `(name, (modified_time, chosen category))` per file. -/
def buildSelection (rows : Selection) : Selection :=
  rows.foldl (fun d r => dictInsert d r.1 r.2) []

/-- Python dict value equality `d1 == d2` on the association-list model:
same keys with the same values, irrespective of insertion order. -/
def pyDictEq (d1 d2 : Selection) : Bool :=
  d1.all (fun p => decide (dictLookup d2 p.1 = some p.2)) &&
  d2.all (fun p => decide (dictLookup d1 p.1 = some p.2))

/-- `categorized_data[category].append((name, modified_time))` on the
grouped association list (only entries whose key is `cat` are extended;
the category keys are distinct, so at most one is). -/
def updateAssoc (g : Grouped) (cat : String) (entry : String × String) : Grouped :=
  g.map fun p => if p.1 = cat then (p.1, p.2 ++ [entry]) else p

/-- Lines 330-332: `categorized_data = {cat: [] for cat in categories}`
followed by appending every selection entry to its category's list, in
selection order. -/
def categorized_data (sel : Selection) : Grouped :=
  sel.foldl (fun g e => updateAssoc g e.2.2 (e.1, e.2.1))
    (categories.map fun c => (c, ([] : List (String × String))))

/-! ### The three renderers (app.py lines 99-213)

An export buffer is modelled by the grid of text cells the renderer
builds; the downstream binary encoders are external libraries, outside
this repository.  Each renderer's row list is read off its source loop. -/

/-- `generate_word`: header row, then, for each category with a non-empty
item list, a category row `(category, "")` followed by one row
`(name, modified_time)` per file (lines 99-147; fonts and column widths
are presentation attributes of the cells, not extra cells). -/
def generate_word (g : Grouped) : List (String × String) :=
  ("Category / File Name", "Last Modified") ::
    (g.map fun p => if p.2 = [] then [] else (p.1, "") :: p.2).flatten

/-- `generate_pdf`: the `data` list of lines 159-166 — header row, then,
for each category with a non-empty item list, `(category, "")` followed by
`(name, modified_time)` per file; cells are modelled by their text. -/
def generate_pdf (g : Grouped) : List (String × String) :=
  ("Category / File Name", "Last Modified") ::
    (g.map fun p => if p.2 = [] then [] else (p.1, "") :: p.2).flatten

/-- The `data` list built in `generate_excel` (lines 188-193): per category
with non-empty items, a `(category, '')` row then `('   ' + name,
modified_time)` rows — file names carry a three-space indent. -/
def excelData (g : Grouped) : List (String × String) :=
  (g.map fun p =>
    if p.2 = [] then []
    else (p.1, "") :: p.2.map fun it => ("   " ++ it.1, it.2)).flatten

/-- The sequence of whole-row writes `generate_excel` performs on the
worksheet, in program order, as `(1-indexed sheet row, cells)`:

1. `df.to_excel(..., startrow=1)` writes the dataframe column header at
   sheet row 2 and data row `i` at sheet row `3 + i` (nothing when the
   dataframe is empty, since `pd.DataFrame([])` has no columns);
2. the explicit header loop writes sheet row 1;
3. the `df.iterrows()` loop rewrites data row `i` at sheet row `2 + i`. -/
def excelWrites (data : List (String × String)) : List (Nat × (String × String)) :=
  (if data.length = 0 then []
   else (2, ("Category / File Name", "Last Modified")) ::
     (List.range data.length).map fun i => (3 + i, data.getD i ("", ""))) ++
  [(1, ("Category / File Name", "Last Modified"))] ++
  ((List.range data.length).map fun i => (2 + i, data.getD i ("", "")))

/-- `generate_excel` (lines 187-213): the final worksheet rows, read off by
taking, for each written sheet row, the last write to it.  The written rows
are 1 to `n + 2` for `n = data.length` data rows (row 1 from the header
loop, rows 2 to `n + 1` from the rewrite loop, row `n + 2` left over from
`df.to_excel`), and just row 1 when the dataframe is empty. -/
def generate_excel (g : Grouped) : List (String × String) :=
  let data := excelData g
  let writes := excelWrites data
  let nrows := if data.length = 0 then 1 else data.length + 2
  (List.range nrows).filterMap fun j =>
    (writes.reverse.find? fun w => w.1 = j + 1).map fun w => w.2

/-! ### Session state (app.py lines 223-232 and 322-326) -/

/-- The session state the program keeps: the three format checkboxes, the
cache of generated export buffers (`generated_files`, keyed
`"excel"`/`"word"`/`"pdf"`, buffers modelled by their row grids), and the
assignment store `category_selection`. -/
structure Session where
  generateExcelOption : Bool
  generateWordOption : Bool
  generatePdfOption : Bool
  generatedFiles : List (String × List (String × String))
  categorySelection : Selection
deriving DecidableEq, Repr

/-- Initial session state (lines 223-232): all checkboxes false, no
generated files, empty selection. -/
def initialSession : Session :=
  ⟨false, false, false, [], []⟩

/-- Lines 322-326: replace the assignment store by a freshly built map.
When the new map differs from the stored one (Python dict `!=`, value
equality), the store is replaced and `generated_files.clear()` discards
every cached buffer; when they are equal nothing is touched. -/
def setAll (s : Session) (sel : Selection) : Session :=
  if pyDictEq sel s.categorySelection = true then s
  else { s with categorySelection := sel, generatedFiles := [] }

/-! ### Concrete filesystems used to instantiate the theorems -/

/-- A filesystem with a single base directory `/srv/x` holding
`docs/a.txt`, enumerated under the display base `C:\shared`. -/
def fsSrv : FS where
  pathExists := fun p => decide (p = "/srv/x")
  walk := fun p => if p = "/srv/x" then [("/srv/x/docs", "a.txt")] else []
  mtime := fun _ => some "2024-01-01"

/-- A filesystem with `/base` holding `a.txt` (readable mtime) and
`b.txt` (mtime read fails). -/
def fsBase : FS where
  pathExists := fun p => decide (p = "/base")
  walk := fun p => if p = "/base" then [("/base", "a.txt"), ("/base", "b.txt")] else []
  mtime := fun p => if p = "/base/a.txt" then some "2024-01-01" else none

/-- A filesystem on which both the raw string `a//b` and its normalized
form `a/b` name an existing entry, plus `/data`; nothing else exists. -/
def fsLocal : FS where
  pathExists := fun p => decide (p = "a/b" ∨ p = "a//b" ∨ p = "/data")
  walk := fun _ => []
  mtime := fun _ => none

/-! ### Claim C1 — relativePath is literal first-occurrence substitution -/

/-- Claim C1: every record enumerated by `get_files` has `relativePath`
equal to its `absolutePath` with the first occurrence of the base path
replaced by the display base as a literal string substitution
(`full_path.replace(path, original_path, 1)`) — first occurrence only,
not global, and not restricted to a prefix position. -/
theorem c1_relativePath_substitution (fs : FS) (path orig : String)
    (recs : List FileRecord) (h : get_files fs path orig = Except.ok recs)
    (r : FileRecord) (hr : r ∈ recs) :
    r.relativePath = pyReplaceFirst r.absolutePath path orig := by
  unfold get_files at h
  split at h
  · exact absurd h (by simp)
  · injection h with h'
    subst h'
    rw [List.mem_map] at hr
    obtain ⟨rn, -, rfl⟩ := hr
    rfl

/-- Claim C1 witness: on `fsSrv`, with basePath `/srv/x` and displayBase
`C:\shared`, the enumerated record for `/srv/x/docs/a.txt` has
relativePath `C:\shared/docs/a.txt`, obtained by the substitution. -/
theorem c1_witness :
    get_files fsSrv "/srv/x" "C:\\shared" =
      Except.ok [⟨"a.txt", "2024-01-01", "/srv/x/docs/a.txt", "C:\\shared/docs/a.txt"⟩] ∧
    (⟨"a.txt", "2024-01-01", "/srv/x/docs/a.txt", "C:\\shared/docs/a.txt"⟩ : FileRecord).relativePath =
      pyReplaceFirst "/srv/x/docs/a.txt" "/srv/x" "C:\\shared" := by
  have h : get_files fsSrv "/srv/x" "C:\\shared" =
      Except.ok [⟨"a.txt", "2024-01-01", "/srv/x/docs/a.txt", "C:\\shared/docs/a.txt"⟩] := by
    rfl
  exact ⟨h, c1_relativePath_substitution fsSrv "/srv/x" "C:\\shared" _ h _ (by decide)⟩

/-! ### Claim C7 — per-file mtime failure is recovered as "Unavailable" -/

/-- Claim C7: when the modification time of the `i`-th walked file cannot
be read, `get_files` still succeeds, still yields one record per walked
file, and the `i`-th record carries `"Unavailable"` as its modified time
together with the file's name, absolute path and relative path. -/
theorem c7_mtime_failure_recovered (fs : FS) (path orig : String)
    (hex : fs.pathExists path = true) (i : Nat) (rn : String × String)
    (hrn : (fs.walk path)[i]? = some rn)
    (hm : fs.mtime (posixNormpath (posixJoin rn.1 rn.2)) = none) :
    ∃ recs, get_files fs path orig = Except.ok recs ∧
      recs.length = (fs.walk path).length ∧
      recs[i]? = some
        ⟨rn.2, "Unavailable", posixNormpath (posixJoin rn.1 rn.2),
         pyReplaceFirst (posixNormpath (posixJoin rn.1 rn.2)) path orig⟩ := by
  have hok : get_files fs path orig = Except.ok ((fs.walk path).map fun rn =>
      let full_path := posixNormpath (posixJoin rn.1 rn.2)
      let relative_full_path := pyReplaceFirst full_path path orig
      let modified_time :=
        match fs.mtime full_path with
        | some t => t
        | none => "Unavailable"
      ⟨rn.2, modified_time, full_path, relative_full_path⟩) := by
    unfold get_files
    rw [hex]
    rfl
  refine ⟨_, hok, ?_, ?_⟩
  · simp [List.length_map]
  · rw [List.getElem?_map, hrn]
    simp [hm]

/-- Claim C7 witness: on `fsBase`, the mtime of `/base/b.txt` is
unreadable, yet enumeration succeeds with two records and records
`"Unavailable"` for `b.txt`. -/
theorem c7_witness :
    fsBase.pathExists "/base" = true ∧
    (fsBase.walk "/base")[1]? = some ("/base", "b.txt") ∧
    fsBase.mtime (posixNormpath (posixJoin "/base" "b.txt")) = none ∧
    (∃ recs, get_files fsBase "/base" "/base" = Except.ok recs ∧
      recs.length = (fsBase.walk "/base").length ∧
      recs[1]? = some
        ⟨"b.txt", "Unavailable", posixNormpath (posixJoin "/base" "b.txt"),
         pyReplaceFirst (posixNormpath (posixJoin "/base" "b.txt")) "/base" "/base"⟩) :=
  ⟨by decide, by decide, by decide,
   c7_mtime_failure_recovered fsBase "/base" "/base" (by decide) 1 ("/base", "b.txt")
     (by decide) (by decide)⟩

/-! ### Claim C4 — resolve on nonexistent and plain local paths -/

/-- Claim C4 counterexample: the claim fails on the code in two ways.
`a//b` is an existing local path with no mapped-drive prefix, yet
`resolve_path` returns the normalized `a/b`, not the path unchanged; and
`Z:x` references no existing filesystem entry, yet with the `Z:` mapping
unset `resolve_path` crashes with `TypeError` instead of failing with the
`InvalidPathError` `ValueError`. -/
theorem c4_counterexample :
    (fsLocal.pathExists "a//b" = true ∧
      resolve_path none fsLocal "a//b" = ResolveResult.ok "a/b" ∧
      ("a//b" : String) ≠ "a/b") ∧
    (fsLocal.pathExists "Z:x" = false ∧
      resolve_path none fsLocal "Z:x" = ResolveResult.typeError) := by
  decide

/-- Claim C4 amended: `resolve_path` first normalizes the path.  For every
path whose normalized form has no mapped-drive prefix (`Z:`/`Y:`) and is
not UNC-style, resolution fails with the `InvalidPathError` `ValueError`
when the normalized path names no existing entry, and returns the
normalized path — hence the path unchanged exactly when it is already
normal — when it exists.  A `Z:`-prefixed path resolved with the `UNC_PATH`
mapping unset crashes with `TypeError` rather than failing with
`InvalidPathError`. -/
theorem c4_amended_normalized_resolution :
    (∀ (env : Option String) (fs : FS) (path : String),
      strTake (posixNormpath path) 2 ≠ "Z:" →
      strTake (posixNormpath path) 2 ≠ "Y:" →
      strStartsWith (posixNormpath path) "\\\\" = false →
      (fs.pathExists (posixNormpath path) = false →
        resolve_path env fs path =
          ResolveResult.valueError
            ("Invalid or inaccessible local path: " ++ posixNormpath path)) ∧
      (fs.pathExists (posixNormpath path) = true →
        resolve_path env fs path = ResolveResult.ok (posixNormpath path))) ∧
    (∀ (fs : FS) (path : String), strTake (posixNormpath path) 2 = "Z:" →
      resolve_path none fs path = ResolveResult.typeError) := by
  constructor
  · intro env fs path h1 h2 h3
    constructor
    · intro hex
      unfold resolve_path
      simp [h1, h2, h3, hex]
    · intro hex
      unfold resolve_path
      simp [h1, h2, h3, hex]
  · intro fs path h1
    unfold resolve_path
    simp [h1]

/-- Claim C4 witness: on `fsLocal`, `/data` exists and resolves to itself,
`/missing` does not exist and fails with the `InvalidPathError`
`ValueError`, and `Z:a` with the mapping unset crashes. -/
theorem c4_witness :
    resolve_path none fsLocal "/data" = ResolveResult.ok "/data" ∧
    resolve_path none fsLocal "/missing" =
      ResolveResult.valueError ("Invalid or inaccessible local path: " ++ "/missing") ∧
    resolve_path none fsLocal "Z:a" = ResolveResult.typeError :=
  ⟨(c4_amended_normalized_resolution.1 none fsLocal "/data"
      (by decide) (by decide) (by decide)).2 (by decide),
   (c4_amended_normalized_resolution.1 none fsLocal "/missing"
      (by decide) (by decide) (by decide)).1 (by decide),
   c4_amended_normalized_resolution.2 fsLocal "Z:a" (by decide)⟩

/-! ### Claim C9 — absence of UNC_PATH never crashes non-Z: resolution -/

/-- Claim C9: with the `UNC_PATH` configuration value absent, resolution of
every path whose (normalized) drive prefix is not the mapped letter `Z:`
completes normally — it returns a resolved path or raises the documented
`ValueError`, never the `TypeError` crash. -/
theorem c9_no_env_no_crash (fs : FS) (path : String)
    (h : strTake (posixNormpath path) 2 ≠ "Z:") :
    (∃ p, resolve_path none fs path = ResolveResult.ok p) ∨
    (∃ m, resolve_path none fs path = ResolveResult.valueError m) := by
  unfold resolve_path
  simp only [h, if_false]
  split
  · split
    · exact Or.inl ⟨_, rfl⟩
    · exact Or.inr ⟨_, rfl⟩
  · split
    · split
      · exact Or.inl ⟨_, rfl⟩
      · exact Or.inr ⟨_, rfl⟩
    · split
      · exact Or.inl ⟨_, rfl⟩
      · exact Or.inr ⟨_, rfl⟩

/-- Claim C9 witness: `/tmp` has no `Z:` prefix, and resolving it with the
configuration value absent yields a normal outcome (here the documented
`ValueError`, since `/tmp` does not exist on `fsLocal`). -/
theorem c9_witness :
    strTake (posixNormpath "/tmp") 2 ≠ "Z:" ∧
    ((∃ p, resolve_path none fsLocal "/tmp" = ResolveResult.ok p) ∨
     (∃ m, resolve_path none fsLocal "/tmp" = ResolveResult.valueError m)) :=
  ⟨by decide, c9_no_env_no_crash fsLocal "/tmp" (by decide)⟩

/-! ### Claim C3 — setAll invalidates caches exactly on value change -/

/-- A session holding one assignment, a cached Excel buffer, and mixed
checkbox state, used to instantiate the `setAll` theorem. -/
def sessionC3 : Session :=
  ⟨true, false, true,
   [("excel", [("Category / File Name", "Last Modified")])],
   [("a.txt", ("2024-01-01", "SAFETY"))]⟩

/-- Claim C3: replacing the assignment store with a map value-equal to the
current one leaves the whole session — in particular every cached export
buffer — unchanged, while replacing it with a differing map installs the
new map and discards every cached export buffer, leaving the remaining
session state (the three format checkboxes) untouched. -/
theorem c3_setAll_cache_invalidation (s : Session) (sel1 sel2 : Selection)
    (h1 : pyDictEq sel1 s.categorySelection = true)
    (h2 : pyDictEq sel2 s.categorySelection = false) :
    setAll s sel1 = s ∧
    (setAll s sel2).generatedFiles = [] ∧
    (setAll s sel2).categorySelection = sel2 ∧
    (setAll s sel2).generateExcelOption = s.generateExcelOption ∧
    (setAll s sel2).generateWordOption = s.generateWordOption ∧
    (setAll s sel2).generatePdfOption = s.generatePdfOption := by
  unfold setAll
  rw [if_pos h1, if_neg (by simp [h2])]
  simp

/-- Claim C3 witness: on `sessionC3`, setting the value-equal map keeps the
cached buffer; setting a differing map clears it and keeps the checkboxes. -/
theorem c3_witness :
    setAll sessionC3 [("a.txt", ("2024-01-01", "SAFETY"))] = sessionC3 ∧
    (setAll sessionC3 [("a.txt", ("2024-01-01", "OTHER"))]).generatedFiles = [] ∧
    (setAll sessionC3 [("a.txt", ("2024-01-01", "OTHER"))]).categorySelection =
      [("a.txt", ("2024-01-01", "OTHER"))] ∧
    (setAll sessionC3 [("a.txt", ("2024-01-01", "OTHER"))]).generateExcelOption =
      sessionC3.generateExcelOption ∧
    (setAll sessionC3 [("a.txt", ("2024-01-01", "OTHER"))]).generateWordOption =
      sessionC3.generateWordOption ∧
    (setAll sessionC3 [("a.txt", ("2024-01-01", "OTHER"))]).generatePdfOption =
      sessionC3.generatePdfOption :=
  c3_setAll_cache_invalidation sessionC3
    [("a.txt", ("2024-01-01", "SAFETY"))] [("a.txt", ("2024-01-01", "OTHER"))]
    (by decide) (by decide)

/-! ### Claim C5 — the grouped mapping always has the six fixed keys -/

/-- `updateAssoc` never changes the association list's keys. -/
theorem updateAssoc_keys (g : Grouped) (cat : String) (e : String × String) :
    (updateAssoc g cat e).map Prod.fst = g.map Prod.fst := by
  unfold updateAssoc
  rw [List.map_map]
  apply List.map_congr_left
  intro p _
  by_cases h : p.1 = cat <;> simp [h]

/-- Folding selection entries into the grouped accumulator keeps its keys. -/
theorem categorized_fold_keys (sel : Selection) :
    ∀ g : Grouped,
      (sel.foldl (fun g e => updateAssoc g e.2.2 (e.1, e.2.1)) g).map Prod.fst =
        g.map Prod.fst := by
  induction sel with
  | nil => intro g; rfl
  | cons e rest ih => intro g; rw [List.foldl_cons, ih, updateAssoc_keys]

/-- Claim C5: for every assignment map, the grouped mapping's keys are
exactly the six fixed categories in their fixed order — categories with
zero files kept with an empty list — and after installing
`{"a.txt": ("2024-01-01", "SAFETY")}` into the fresh session the grouping
is `SAFETY ↦ [("a.txt","2024-01-01")]` and empty elsewhere. -/
theorem c5_grouped_fixed_categories :
    (∀ sel : Selection, (categorized_data sel).map Prod.fst = categories) ∧
    categorized_data
        ((setAll initialSession [("a.txt", ("2024-01-01", "SAFETY"))]).categorySelection) =
      [("CONTRACTUAL", []), ("ARCHITECTURAL", []), ("STRUCTURAL", []),
       ("SERVICES", []), ("SAFETY", [("a.txt", "2024-01-01")]), ("OTHER", [])] := by
  constructor
  · intro sel
    unfold categorized_data
    rw [categorized_fold_keys, List.map_map]
    rfl
  · decide

/-! ### Claim C2 — all three renderers skip empty categories entirely -/

/-- Flattening per-category blocks that are empty for empty categories is
insensitive to dropping the empty categories. -/
theorem flatten_skip_empty (g : Grouped)
    (f : String × List (String × String) → List (String × String)) :
    (g.map fun p => if p.2 = [] then [] else f p).flatten =
      ((g.filter fun p => !p.2.isEmpty).map fun p =>
        if p.2 = [] then [] else f p).flatten := by
  induction g with
  | nil => rfl
  | cons p t ih =>
    by_cases h : p.2 = []
    · simp [h, List.filter_cons, ih]
    · simp [h, List.filter_cons, List.isEmpty_iff, ih]

/-- Claim C2: each renderer produces the same output on a grouped mapping
and on that mapping with its empty categories removed — a category with an
empty file list contributes no heading row and no file rows to any of the
three outputs. -/
theorem c2_renderers_skip_empty_categories (g : Grouped) :
    generate_word g = generate_word (g.filter fun p => !p.2.isEmpty) ∧
    generate_pdf g = generate_pdf (g.filter fun p => !p.2.isEmpty) ∧
    generate_excel g = generate_excel (g.filter fun p => !p.2.isEmpty) := by
  refine ⟨?_, ?_, ?_⟩
  · unfold generate_word
    rw [flatten_skip_empty]
  · unfold generate_pdf
    rw [flatten_skip_empty]
  · unfold generate_excel
    have h : excelData g = excelData (g.filter fun p => !p.2.isEmpty) := by
      unfold excelData
      rw [flatten_skip_empty]
    rw [h]

/-! ### Claim C6 — the Excel workbook rows on the end-to-end scenario -/

/-- The scenario selection: `a.txt` assigned SAFETY, `b.txt` assigned
OTHER, in that order. -/
def selScenario : Selection :=
  [("a.txt", ("2024-01-01", "SAFETY")), ("b.txt", ("2024-01-02", "OTHER"))]

/-- The scenario selection with the two assignments made in the opposite
order. -/
def selScenarioRev : Selection :=
  [("b.txt", ("2024-01-02", "OTHER")), ("a.txt", ("2024-01-01", "SAFETY"))]

/-- Claim C6 (documents the code bug): on the scenario grouping, the
category rows do follow the fixed enum order regardless of assignment
order, but the produced workbook has six rows, not the five the claim
lists: file-name cells carry a three-space indent, and
`df.to_excel(startrow=1)` wrote data rows at sheet rows 3..6 of which the
rewrite loop overwrites only rows 2..5, leaving a duplicate of the last
data row (`   b.txt` / `2024-01-02`) at the final sheet row. -/
theorem c6_excel_rows_evaluation :
    generate_excel (categorized_data selScenario) =
      [("Category / File Name", "Last Modified"),
       ("SAFETY", ""), ("   a.txt", "2024-01-01"),
       ("OTHER", ""), ("   b.txt", "2024-01-02"),
       ("   b.txt", "2024-01-02")] ∧
    generate_excel (categorized_data selScenarioRev) =
      generate_excel (categorized_data selScenario) ∧
    generate_excel (categorized_data selScenario) ≠
      [("Category / File Name", "Last Modified"),
       ("SAFETY", ""), ("a.txt", "2024-01-01"),
       ("OTHER", ""), ("b.txt", "2024-01-02")] := by
  decide

/-! ### Claim C10 — the store is keyed by bare file name only -/

/-- The keys of a string-keyed dictionary, in order. -/
def keysOf {α : Type} (d : List (String × α)) : List String :=
  d.map Prod.fst

/-- Lookup after an in-place value update of key `a`: key `a` now yields
the stored `v` exactly when it was present; other keys are untouched. -/
theorem dictLookup_map_update {α : Type} (d : List (String × α)) (a : String) (v : α)
    (k : String) :
    dictLookup (d.map fun p => if p.1 = a then (a, v) else p) k =
      if k = a then (if d.any (fun p => p.1 = a) then some v else none)
      else dictLookup d k := by
  induction d with
  | nil => by_cases hk : k = a <;> simp [dictLookup, hk]
  | cons p t ih =>
    rw [List.map_cons, List.any_cons]
    by_cases hp : p.1 = a <;> by_cases hk : k = a
    · subst hk
      simp [dictLookup, List.find?_cons, hp]
    · rw [if_pos hp]
      have h1 : dictLookup ((a, v) :: List.map (fun p => if p.1 = a then (a, v) else p) t) k =
          dictLookup (List.map (fun p => if p.1 = a then (a, v) else p) t) k := by
        simp [dictLookup, List.find?_cons, Ne.symm hk]
      have hpk : ¬p.1 = k := fun h => hk (h.symm.trans hp)
      have h2 : dictLookup (p :: t) k = dictLookup t k := by
        simp [dictLookup, List.find?_cons, hpk]
      rw [h1, ih, if_neg hk, if_neg hk, h2]
    · subst hk
      rw [if_neg hp]
      have h1 : dictLookup (p :: List.map (fun q => if q.1 = k then (k, v) else q) t) k =
          dictLookup (List.map (fun q => if q.1 = k then (k, v) else q) t) k := by
        simp [dictLookup, List.find?_cons, hp]
      rw [h1, ih]
      cases hta : t.any fun q => decide (q.1 = k) <;> simp [hp, hta]
    · rw [if_neg hp]
      by_cases hpk : p.1 = k
      · simp [dictLookup, List.find?_cons, hpk, hk]
      · have h1 : dictLookup (p :: List.map (fun q => if q.1 = a then (a, v) else q) t) k =
            dictLookup (List.map (fun q => if q.1 = a then (a, v) else q) t) k := by
          simp [dictLookup, List.find?_cons, hpk]
        have h2 : dictLookup (p :: t) k = dictLookup t k := by
          simp [dictLookup, List.find?_cons, hpk]
        rw [h1, ih, if_neg hk, if_neg hk, h2]

/-- Lookup in `d ++ [(a, v)]` when `a` was absent from `d`. -/
theorem dictLookup_append_single {α : Type} (d : List (String × α)) (a : String) (v : α)
    (k : String) (hany : d.any (fun p => p.1 = a) = false) :
    dictLookup (d ++ [(a, v)]) k = if k = a then some v else dictLookup d k := by
  unfold dictLookup
  rw [List.find?_append]
  by_cases hk : k = a
  · rw [if_pos hk]
    have hnone : d.find? (fun p => decide (p.1 = k)) = none := by
      rw [List.find?_eq_none]
      intro x hx hdec
      have hxk : x.1 = k := of_decide_eq_true hdec
      have hxa : decide (x.1 = a) = true := by simp [hxk, hk]
      have hmem : d.any (fun p => decide (p.1 = a)) = true :=
        List.any_eq_true.mpr ⟨x, hx, hxa⟩
      rw [hany] at hmem
      exact Bool.false_ne_true hmem
    rw [hnone, Option.none_or]
    simp [List.find?_cons, hk]
  · rw [if_neg hk]
    have hone : (([(a, v)] : List (String × α)).find? fun p => decide (p.1 = k)) = none := by
      simp [List.find?_cons, Ne.symm hk]
    rw [hone, Option.or_none]

/-- Lookup after a Python dict assignment `d[a] = v`: `a` maps to `v`,
every other key is untouched. -/
theorem dictLookup_dictInsert {α : Type} (d : List (String × α)) (a : String) (v : α)
    (k : String) :
    dictLookup (dictInsert d a v) k = if k = a then some v else dictLookup d k := by
  unfold dictInsert
  by_cases hany : (d.any fun p => p.1 = a) = true
  · rw [if_pos hany, dictLookup_map_update, hany]
    by_cases hk : k = a <;> simp [hk]
  · rw [if_neg hany]
    refine dictLookup_append_single d a v k ?_
    cases hb : d.any fun p => p.1 = a
    · rfl
    · exact absurd hb hany

/-- A Python dict assignment keeps the key list when the key is present and
appends the key otherwise. -/
theorem keysOf_dictInsert {α : Type} (d : List (String × α)) (a : String) (v : α) :
    keysOf (dictInsert d a v) =
      if d.any (fun p => p.1 = a) then keysOf d else keysOf d ++ [a] := by
  unfold dictInsert keysOf
  by_cases hany : (d.any fun p => p.1 = a) = true
  · rw [if_pos hany, if_pos hany, List.map_map]
    apply List.map_congr_left
    intro p _
    by_cases hp : p.1 = a <;> simp [hp]
  · rw [if_neg hany, if_neg hany]
    simp

/-- Python dict assignment preserves distinctness of the stored keys. -/
theorem keysOf_nodup_dictInsert {α : Type} (d : List (String × α)) (a : String) (v : α)
    (h : (keysOf d).Nodup) : (keysOf (dictInsert d a v)).Nodup := by
  rw [keysOf_dictInsert]
  by_cases hany : (d.any fun p => p.1 = a) = true
  · rwa [if_pos hany]
  · rw [if_neg hany]
    have ha : a ∉ keysOf d := by
      intro hmem
      apply hany
      rw [List.any_eq_true]
      unfold keysOf at hmem
      obtain ⟨p, hp, hpa⟩ := List.mem_map.mp hmem
      exact ⟨p, hp, by simp [hpa]⟩
    rw [List.nodup_append]
    exact ⟨h, List.nodup_singleton a, by rwa [List.disjoint_singleton]⟩

/-- The store built by the per-file assignment loop has pairwise distinct
keys. -/
theorem buildSelection_keys_nodup (rows : Selection) :
    (keysOf (buildSelection rows)).Nodup := by
  unfold buildSelection
  have h : ∀ d : Selection, (keysOf d).Nodup →
      (keysOf (rows.foldl (fun d r => dictInsert d r.1 r.2) d)).Nodup := by
    induction rows with
    | nil => intro d hd; exact hd
    | cons r rest ih =>
      intro d hd
      rw [List.foldl_cons]
      exact ih _ (keysOf_nodup_dictInsert d r.1 r.2 hd)
  exact h [] (by simp [keysOf])

/-- A dictionary with distinct keys holds at most one entry per key. -/
theorem countP_key_le_one {α : Type} (d : List (String × α)) (h : (keysOf d).Nodup)
    (name : String) : (d.countP fun p => p.1 = name) ≤ 1 := by
  induction d with
  | nil => simp
  | cons p t ih =>
    rw [List.countP_cons]
    unfold keysOf at h
    rw [List.map_cons] at h
    by_cases hp : p.1 = name
    · have hzero : (t.countP fun q => decide (q.1 = name)) = 0 := by
        rw [List.countP_eq_zero]
        intro q hq hqname
        have hq1 : q.1 = name := by simpa using hqname
        have : p.1 ∈ t.map Prod.fst := by
          rw [List.mem_map]
          exact ⟨q, hq, hq1.trans hp.symm⟩
        exact (List.nodup_cons.mp h).1 this
      rw [hzero]
      simp [hp]
    · have hle := ih (List.Nodup.of_cons h)
      simpa [hp] using hle

/-- Folding dict assignments: lookup in the result is the value of the
last assignment to that key, falling back to the initial dictionary. -/
theorem dictLookup_foldl_insert (rows : Selection) :
    ∀ (d : Selection) (k : String),
      dictLookup (rows.foldl (fun d r => dictInsert d r.1 r.2) d) k =
        (((rows.reverse.find? fun p => p.1 = k).map fun p => p.2).or (dictLookup d k)) := by
  induction rows with
  | nil => intro d k; simp
  | cons r rest ih =>
    intro d k
    rw [List.foldl_cons, ih, List.reverse_cons, List.find?_append]
    cases hfind : rest.reverse.find? fun p => decide (p.1 = k) with
    | some p => rfl
    | none =>
      rw [dictLookup_dictInsert]
      by_cases hk : r.1 = k
      · subst hk
        simp [List.find?_cons]
      · simp [List.find?_cons, hk, Ne.symm hk]

/-- Lookup in the store built by the assignment loop: the value recorded
for a name is the one of the last row carrying that name. -/
theorem dictLookup_buildSelection (rows : Selection) (k : String) :
    dictLookup (buildSelection rows) k =
      (rows.reverse.find? fun p => p.1 = k).map fun p => p.2 := by
  unfold buildSelection
  rw [dictLookup_foldl_insert]
  simp [dictLookup]

/-- `categorized_data` characterized entrywise: each fixed category is
paired with the selection entries assigned to it, in selection order. -/
theorem categorized_data_eq_filterMap (sel : Selection) :
    categorized_data sel = categories.map fun cat =>
      (cat, sel.filterMap fun e => if e.2.2 = cat then some (e.1, e.2.1) else none) := by
  have key : ∀ (s : Selection) (f : String → List (String × String)),
      s.foldl (fun g e => updateAssoc g e.2.2 (e.1, e.2.1)) (categories.map fun c => (c, f c)) =
        categories.map fun cat =>
          (cat, f cat ++ s.filterMap fun e => if e.2.2 = cat then some (e.1, e.2.1) else none) := by
    intro s
    induction s with
    | nil => intro f; simp
    | cons e rest ih =>
      intro f
      rw [List.foldl_cons]
      have hstep : updateAssoc (categories.map fun c => (c, f c)) e.2.2 (e.1, e.2.1) =
          categories.map fun c => (c, if c = e.2.2 then f c ++ [(e.1, e.2.1)] else f c) := by
        unfold updateAssoc
        rw [List.map_map]
        apply List.map_congr_left
        intro c _
        by_cases h : c = e.2.2 <;> simp [h]
      rw [hstep, ih (fun c => if c = e.2.2 then f c ++ [(e.1, e.2.1)] else f c)]
      apply List.map_congr_left
      intro c _
      by_cases h : c = e.2.2
      · subst h
        simp [List.filterMap_cons]
      · simp [h, List.filterMap_cons, Ne.symm h]
  have hkey := key sel (fun _ => [])
  unfold categorized_data
  simpa using hkey

/-- A category's file list holds at most as many entries named `name` as
the whole selection does. -/
theorem countP_name_filterMap (sel : Selection) (cat name : String) :
    ((sel.filterMap fun e => if e.2.2 = cat then some (e.1, e.2.1) else none).countP
        fun it => it.1 = name) ≤ sel.countP fun e => e.1 = name := by
  rw [List.countP_filterMap]
  apply List.countP_mono_left
  intro e _ h
  by_cases hc : e.2.2 = cat
  · simpa [hc] using h
  · simp [hc] at h

/-- Claim C10: the assignment store is keyed by bare file name — when two
enumerated rows share a name, the later row's (modified-time, category)
value overwrites the earlier one's, the store keeps at most one entry per
distinct name, and consequently every category list fed to the exporters
holds at most one entry per distinct name. -/
theorem c10_store_keyed_by_bare_name (rows : Selection) (name : String) :
    ((buildSelection rows).countP fun p => p.1 = name) ≤ 1 ∧
    dictLookup (buildSelection rows) name =
      ((rows.reverse.find? fun p => p.1 = name).map fun p => p.2) ∧
    ∀ p ∈ categorized_data (buildSelection rows),
      (p.2.countP fun it => it.1 = name) ≤ 1 := by
  refine ⟨countP_key_le_one _ (buildSelection_keys_nodup rows) name,
    dictLookup_buildSelection rows name, ?_⟩
  intro p hp
  rw [categorized_data_eq_filterMap] at hp
  obtain ⟨cat, -, rfl⟩ := List.mem_map.mp hp
  exact le_trans (countP_name_filterMap _ cat name)
    (countP_key_le_one _ (buildSelection_keys_nodup rows) name)

/-- Enumeration rows with a duplicated file name `a.txt` (two directories),
the later row assigning OTHER. -/
def rowsDup : Selection :=
  [("a.txt", ("2024-01-01", "SAFETY")), ("b.txt", ("2024-01-02", "OTHER")),
   ("a.txt", ("2024-01-03", "OTHER"))]

/-- Claim C10 witness: on `rowsDup`, the store keeps one `a.txt` entry
holding the later row's value, and the OTHER category list fed to the
exporters holds one `a.txt` entry. -/
theorem c10_witness :
    (((buildSelection rowsDup).countP fun p => p.1 = "a.txt") ≤ 1 ∧
     dictLookup (buildSelection rowsDup) "a.txt" =
       ((rowsDup.reverse.find? fun p => p.1 = "a.txt").map fun p => p.2)) ∧
    (("OTHER", [("a.txt", "2024-01-03"), ("b.txt", "2024-01-02")]) ∈
        categorized_data (buildSelection rowsDup) ∧
      (([("a.txt", "2024-01-03"), ("b.txt", "2024-01-02")] :
          List (String × String)).countP fun it => it.1 = "a.txt") ≤ 1) :=
  ⟨⟨(c10_store_keyed_by_bare_name rowsDup "a.txt").1,
    (c10_store_keyed_by_bare_name rowsDup "a.txt").2.1⟩,
   ⟨by decide,
    (c10_store_keyed_by_bare_name rowsDup "a.txt").2.2
      ("OTHER", [("a.txt", "2024-01-03"), ("b.txt", "2024-01-02")]) (by decide)⟩⟩

end FileCategorization
